import Mathlib

/-!
Verification of the arc-curve / particle-progress engine of the
threat-map-d3 repository.

The engine is shallowly embedded over the reals:

* `AnimatedAttackArcs` models `src/src/component/AnimatedAttackArcs.js`
  (methods `createArcPath`, `getPointAlongArc`, `addArc`, `removeArc`);
* `D3AnimatedArcs` models the first component of
  `src/src/component/D3AnimatedArcs.tsx` (`createCurvedArcPath`,
  `getPointAlongArc`, the quadratic 0.4/200 variant);
* `SimpleWorldMap` models the second component of that file
  (`createDramaticGlobeArc`, the fixed cubic 0.6/300 variant, and the
  inlined particle-position computation);
* `SimpleWorldMapV2` models the third component of that file (the
  enhanced `createDramaticGlobeArc` / `getPointAlongArc` pair keyed by
  a `curveType` argument);
* `SimpleWorldMapV3` models the fourth component of that file
  (`createSimpleArcPath`, a straight `M ... L ...` segment, and the
  inlined linear particle-position computation).

JavaScript numbers are modelled as real numbers, `Math.sqrt` as
`Real.sqrt`, `Math.min` as `min`.  A D3 projection, which in the source
may return `null` for a point, is modelled as a function
`Point → Option Point`; the SVG path string built by the source is
modelled by the structured descriptor `PathDesc`, whose `empty`
constructor stands for the empty string returned when a projection
fails.
-/

namespace ThreatMap

/-- A planar (projected, pixel-space) point: the JS two-element array
`[x, y]`. -/
abbrev Point : Type := ℝ × ℝ

/-- The `curveType` strings accepted by the source switch statements:
`'globe' | 'great-circle' | 'parabolic'` (default `'globe'`). -/
inductive CurveType : Type
| globe
| greatCircle
| parabolic
deriving DecidableEq, Repr

/-- The curve kinds named by the specification (§3, §4 table). -/
inductive SpecKind : Type
| straight
| quadraticGreatCircle
| quadraticGlobe
| cubicGlobe
| cubicParabolic
deriving DecidableEq, Repr

/-- Modelled from the spec: the Multiplier column of the §4 table
(Straight has no multiplier; it is given the unused value 0). -/
noncomputable def specMultiplier : SpecKind → ℝ
| .straight => 0
| .quadraticGreatCircle => 0.3
| .quadraticGlobe => 0.4
| .cubicGlobe => 0.6
| .cubicParabolic => 0.8

/-- Modelled from the spec: the Cap column of the §4 table
(Straight has no cap; it is given the unused value 0). -/
noncomputable def specCap : SpecKind → ℝ
| .straight => 0
| .quadraticGreatCircle => 150
| .quadraticGlobe => 200
| .cubicGlobe => 300
| .cubicParabolic => 400

/-- Modelled from the spec: the Curve degree column of the §4 table. -/
def specDegree : SpecKind → ℕ
| .straight => 1
| .quadraticGreatCircle => 2
| .quadraticGlobe => 2
| .cubicGlobe => 3
| .cubicParabolic => 3

/-- The spec kind that each `curveType` string of
`AnimatedAttackArcs.js` denotes (`'great-circle'` is the quadratic
great-circle kind; `'globe'` and `'parabolic'` are the cubic kinds). -/
def kindOf : CurveType → SpecKind
| .greatCircle => .quadraticGreatCircle
| .globe => .cubicGlobe
| .parabolic => .cubicParabolic

/-- Structured model of the SVG path string built by the source:
`empty` models the empty string sentinel, `line` models `M p0 L p1`,
`quad` models `M p0 Q c p1`, `cubic` models `M p0 C c1 c2 p1`. -/
inductive PathDesc : Type
| empty
| line (p0 p1 : Point)
| quad (p0 c p1 : Point)
| cubic (p0 c1 c2 p1 : Point)

/-- The control-point list of a path descriptor (endpoints included),
in curve order. -/
def PathDesc.ctrl : PathDesc → List Point
| .empty => []
| .line p0 p1 => [p0, p1]
| .quad p0 c p1 => [p0, c, p1]
| .cubic p0 c1 c2 p1 => [p0, c1, c2, p1]

/-- Planar distance between two projected points, as computed inline by
every source variant: `Math.sqrt(dx*dx + dy*dy)` with
`dx = target[0] - source[0]`, `dy = target[1] - source[1]`. -/
noncomputable def dist2D (source target : Point) : ℝ :=
  Real.sqrt ((target.1 - source.1) * (target.1 - source.1) +
             (target.2 - source.2) * (target.2 - source.2))

/-- The identity projection: models calling the engine on points that
are already projected (a projection that never returns null). -/
def idProj : Point → Option Point := fun p => some p

namespace AnimatedAttackArcs

/-- The arc-height switch of `AnimatedAttackArcs.js` (identical in
`createArcPath` lines 95-105 and `getPointAlongArc` lines 142-152):
`'great-circle'` gives `Math.min(distance * 0.3, 150)`, `'parabolic'`
gives `Math.min(distance * 0.8, 400)`, the default `'globe'` gives
`Math.min(distance * 0.6, 300)`. -/
noncomputable def arcHeight : CurveType → ℝ → ℝ
| .greatCircle, distance => min (distance * 0.3) 150
| .parabolic, distance => min (distance * 0.8) 400
| .globe, distance => min (distance * 0.6) 300

/-- `AnimatedAttackArcs.createArcPath` (lines 84-122).  Projects both
endpoints; on a null projection returns the empty path (the source
returns the empty string).  Otherwise builds a quadratic path through
the raised midpoint for `'great-circle'`, and a cubic path for the
other kinds. -/
noncomputable def createArcPath (projection : Point → Option Point)
    (source target : Point) (curveType : CurveType) : PathDesc :=
  match projection source, projection target with
  | some sourcePoint, some targetPoint =>
    let distance := dist2D sourcePoint targetPoint
    let arcH := arcHeight curveType distance
    let midX := (sourcePoint.1 + targetPoint.1) / 2
    let midY := (sourcePoint.2 + targetPoint.2) / 2 - arcH
    if curveType = .greatCircle then
      .quad sourcePoint (midX, midY) targetPoint
    else
      .cubic sourcePoint
        (sourcePoint.1 + (midX - sourcePoint.1) * 0.5, sourcePoint.2 - arcH * 0.3)
        (targetPoint.1 - (targetPoint.1 - midX) * 0.5, targetPoint.2 - arcH * 0.3)
        targetPoint
  | _, _ => .empty

/-- `AnimatedAttackArcs.getPointAlongArc` (lines 132-181).  Projects
both endpoints; on a null projection returns `[0, 0]`.  Otherwise
evaluates the quadratic (for `'great-circle'`) or cubic Bezier
polynomial at the raw progress value, with no clamping. -/
noncomputable def getPointAlongArc (projection : Point → Option Point)
    (source target : Point) (progress : ℝ) (curveType : CurveType) : Point :=
  match projection source, projection target with
  | some sourcePoint, some targetPoint =>
    let distance := dist2D sourcePoint targetPoint
    let arcH := arcHeight curveType distance
    let midX := (sourcePoint.1 + targetPoint.1) / 2
    let midY := (sourcePoint.2 + targetPoint.2) / 2 - arcH
    if curveType = .greatCircle then
      let t := progress
      ((1 - t) ^ 2 * sourcePoint.1 + 2 * (1 - t) * t * midX + t ^ 2 * targetPoint.1,
       (1 - t) ^ 2 * sourcePoint.2 + 2 * (1 - t) * t * midY + t ^ 2 * targetPoint.2)
    else
      let cp1X := sourcePoint.1 + (midX - sourcePoint.1) * 0.5
      let cp1Y := sourcePoint.2 - arcH * 0.3
      let cp2X := targetPoint.1 - (targetPoint.1 - midX) * 0.5
      let cp2Y := targetPoint.2 - arcH * 0.3
      let t := progress
      ((1 - t) ^ 3 * sourcePoint.1 + 3 * (1 - t) ^ 2 * t * cp1X +
         3 * (1 - t) * t ^ 2 * cp2X + t ^ 3 * targetPoint.1,
       (1 - t) ^ 3 * sourcePoint.2 + 3 * (1 - t) ^ 2 * t * cp1Y +
         3 * (1 - t) * t ^ 2 * cp2Y + t ^ 3 * targetPoint.2)
  | _, _ => (0, 0)

end AnimatedAttackArcs

/-- An entry of the `this.arcs` registry `Map` of `AnimatedAttackArcs`
(lines 292-298): the stored source and target plus the particle-spawn
interval id returned by `setInterval`.  The stored styling options and
the DOM path handle play no role in registry bookkeeping and are
omitted. -/
structure ArcEntry : Type where
  source : Point
  target : Point
  intervalId : ℕ

/-- The mutable state of an `AnimatedAttackArcs` instance that the
registry operations touch: the `this.arcs` map (as an insertion-ordered
association list, the JS `Map` representation), the set of live
`setInterval` timers, and a counter supplying fresh interval ids. -/
structure ArcsState : Type where
  arcs : List (String × ArcEntry)
  activeIntervals : List ℕ
  nextIntervalId : ℕ

/-- The state after the constructor: `this.arcs = new Map()` and no
timers. -/
def initialState : ArcsState := ⟨[], [], 0⟩

/-- JS `Map.get`: the value stored at a key, if any. -/
def mapGet (l : List (String × ArcEntry)) (k : String) : Option ArcEntry :=
  (l.find? (fun e => e.1 == k)).map Prod.snd

/-- JS `Map.set`: replace the value in place when the key is present,
otherwise append the new binding. -/
def mapSet (l : List (String × ArcEntry)) (k : String) (v : ArcEntry) :
    List (String × ArcEntry) :=
  if l.any (fun e => e.1 == k) then
    l.map (fun e => if e.1 == k then (k, v) else e)
  else
    l ++ [(k, v)]

/-- JS `Map.delete`: drop the binding of a key. -/
def mapDelete (l : List (String × ArcEntry)) (k : String) :
    List (String × ArcEntry) :=
  l.filter (fun e => !(e.1 == k))

namespace AnimatedAttackArcs

/-- `AnimatedAttackArcs.removeArc` (lines 305-313): when an arc with
this id exists, clear its particle-spawn interval and delete its
registry entry (the DOM removals have no registry effect); otherwise do
nothing. -/
def removeArc (s : ArcsState) (id : String) : ArcsState :=
  match mapGet s.arcs id with
  | some arc =>
    { arcs := mapDelete s.arcs id
      activeIntervals := s.activeIntervals.filter (fun i => i != arc.intervalId)
      nextIntervalId := s.nextIntervalId }
  | none => s

/-- `AnimatedAttackArcs.addArc` (lines 190-299), registry effect only:
first `removeArc(id)`, then project both endpoints and return early on
a null projection; otherwise start a fresh particle-spawn interval and
store the arc entry under `id` with `Map.set`. -/
def addArc (projection : Point → Option Point) (s : ArcsState)
    (id : String) (source target : Point) : ArcsState :=
  let s1 := removeArc s id
  match projection source, projection target with
  | some _, some _ =>
    { arcs := mapSet s1.arcs id ⟨source, target, s1.nextIntervalId⟩
      activeIntervals := s1.nextIntervalId :: s1.activeIntervals
      nextIntervalId := s1.nextIntervalId + 1 }
  | _, _ => s1

/-- A registry operation: a call to `addArc` or to `removeArc`. -/
inductive ArcOp : Type
| add (id : String) (source target : Point)
| remove (id : String)

/-- Apply one registry operation to the state. -/
def applyOp (projection : Point → Option Point) (s : ArcsState) :
    ArcOp → ArcsState
| .add id source target => addArc projection s id source target
| .remove id => removeArc s id

/-- Run a sequence of `addArc` / `removeArc` calls from the
freshly-constructed state. -/
def runOps (projection : Point → Option Point) (ops : List ArcOp) : ArcsState :=
  ops.foldl (applyOp projection) initialState

end AnimatedAttackArcs

namespace D3AnimatedArcs

/-- `createCurvedArcPath` of the first `D3AnimatedArcs.tsx` component
(lines 162-176): a quadratic arc on already-projected points with
height `Math.min(distance * 0.4, 200)`. -/
noncomputable def createCurvedArcPath (source target : Point) : PathDesc :=
  let distance := dist2D source target
  let arcH := min (distance * 0.4) 200
  let midX := (source.1 + target.1) / 2
  let midY := (source.2 + target.2) / 2 - arcH
  .quad source (midX, midY) target

/-- `getPointAlongArc` of the first `D3AnimatedArcs.tsx` component
(lines 179-194): quadratic Bezier interpolation on already-projected
points, height `Math.min(distance * 0.4, 200)`, no clamping of the
progress value. -/
noncomputable def getPointAlongArc (source target : Point) (progress : ℝ) : Point :=
  let distance := dist2D source target
  let arcH := min (distance * 0.4) 200
  let midX := (source.1 + target.1) / 2
  let midY := (source.2 + target.2) / 2 - arcH
  let t := progress
  ((1 - t) ^ 2 * source.1 + 2 * (1 - t) * t * midX + t ^ 2 * target.1,
   (1 - t) ^ 2 * source.2 + 2 * (1 - t) * t * midY + t ^ 2 * target.2)

end D3AnimatedArcs

namespace SimpleWorldMap

/-- `createDramaticGlobeArc` of the second `D3AnimatedArcs.tsx`
component (lines 665-685): a cubic arc on already-projected points with
height `Math.min(distance * 0.6, 300)`. -/
noncomputable def createDramaticGlobeArc (source target : Point) : PathDesc :=
  let distance := dist2D source target
  let arcH := min (distance * 0.6) 300
  let midX := (source.1 + target.1) / 2
  let cp1X := source.1 + (midX - source.1) * 0.5
  let cp1Y := source.2 - arcH * 0.3
  let cp2X := target.1 - (target.1 - midX) * 0.5
  let cp2Y := target.2 - arcH * 0.3
  .cubic source (cp1X, cp1Y) (cp2X, cp2Y) target

/-- The particle-position computation inlined in the second
`D3AnimatedArcs.tsx` component (lines 856-878): cubic Bezier
interpolation with height `Math.min(distance * 0.6, 300)`. -/
noncomputable def particlePosition (sourcePoint targetPoint : Point) (t : ℝ) : Point :=
  let distance := dist2D sourcePoint targetPoint
  let arcH := min (distance * 0.6) 300
  let midX := (sourcePoint.1 + targetPoint.1) / 2
  let cp1X := sourcePoint.1 + (midX - sourcePoint.1) * 0.5
  let cp1Y := sourcePoint.2 - arcH * 0.3
  let cp2X := targetPoint.1 - (targetPoint.1 - midX) * 0.5
  let cp2Y := targetPoint.2 - arcH * 0.3
  ((1 - t) ^ 3 * sourcePoint.1 + 3 * (1 - t) ^ 2 * t * cp1X +
     3 * (1 - t) * t ^ 2 * cp2X + t ^ 3 * targetPoint.1,
   (1 - t) ^ 3 * sourcePoint.2 + 3 * (1 - t) ^ 2 * t * cp1Y +
     3 * (1 - t) * t ^ 2 * cp2Y + t ^ 3 * targetPoint.2)

end SimpleWorldMap

namespace SimpleWorldMapV2

/-- The arc-height switch of the third `D3AnimatedArcs.tsx` component
(lines 1176-1186 and 1211-1221), identical to the
`AnimatedAttackArcs.js` switch. -/
noncomputable def arcHeight : CurveType → ℝ → ℝ
| .greatCircle, distance => min (distance * 0.3) 150
| .parabolic, distance => min (distance * 0.8) 400
| .globe, distance => min (distance * 0.6) 300

/-- `createDramaticGlobeArc` of the third `D3AnimatedArcs.tsx`
component (lines 1170-1203): quadratic for `'great-circle'`, cubic
otherwise, on already-projected points. -/
noncomputable def createDramaticGlobeArc (source target : Point)
    (curveType : CurveType) : PathDesc :=
  let distance := dist2D source target
  let arcH := arcHeight curveType distance
  let midX := (source.1 + target.1) / 2
  let midY := (source.2 + target.2) / 2 - arcH
  if curveType = .greatCircle then
    .quad source (midX, midY) target
  else
    .cubic source
      (source.1 + (midX - source.1) * 0.5, source.2 - arcH * 0.3)
      (target.1 - (target.1 - midX) * 0.5, target.2 - arcH * 0.3)
      target

end SimpleWorldMapV2

namespace SimpleWorldMapV3

/-- `createSimpleArcPath` of the fourth `D3AnimatedArcs.tsx` component
(lines 1896-1899): a straight line from source to target,
`M source L target`. -/
def createSimpleArcPath (source target : Point) : PathDesc :=
  .line source target

/-- The particle-position computation inlined in the fourth
`D3AnimatedArcs.tsx` component (lines 1988-1989): linear interpolation
along the straight line, `x = sourcePoint[0] + (targetPoint[0] -
sourcePoint[0]) * easeProgress` and likewise for `y`. -/
noncomputable def particlePosition (sourcePoint targetPoint : Point) (t : ℝ) : Point :=
  (sourcePoint.1 + (targetPoint.1 - sourcePoint.1) * t,
   sourcePoint.2 + (targetPoint.2 - sourcePoint.2) * t)

end SimpleWorldMapV3

/-- Modelled from the spec: the first cubic control point as the spec
phrases it, `cp1 = source + 0.5*(midpoint - source)` shifted up by
`0.3*h`, with `midpoint` the midpoint of source and target and with
up meaning decreasing y (SVG axis). -/
noncomputable def specCp1 (source target : Point) (h : ℝ) : Point :=
  (source.1 + 0.5 * ((source.1 + target.1) / 2 - source.1),
   source.2 + 0.5 * ((source.2 + target.2) / 2 - source.2) - 0.3 * h)

/-- Modelled from the spec: the second cubic control point as the spec
phrases it, `cp2 = target - 0.5*(target - midpoint)` shifted up by
`0.3*h`. -/
noncomputable def specCp2 (source target : Point) (h : ℝ) : Point :=
  (target.1 - 0.5 * (target.1 - (source.1 + target.1) / 2),
   target.2 - 0.5 * (target.2 - (source.2 + target.2) / 2) - 0.3 * h)

/-- The canonical Bernstein-polynomial value of the Bezier curve on a
control-point list (degree = length - 1), at parameter `t`. -/
noncomputable def bezierList (ps : List Point) (t : ℝ) : Point :=
  (∑ i ∈ Finset.range ps.length,
     ((ps.length - 1).choose i : ℝ) * t ^ i * (1 - t) ^ (ps.length - 1 - i) *
       (ps.getD i (0, 0)).1,
   ∑ i ∈ Finset.range ps.length,
     ((ps.length - 1).choose i : ℝ) * t ^ i * (1 - t) ^ (ps.length - 1 - i) *
       (ps.getD i (0, 0)).2)

/-- The key list of the registry association list. -/
def keysOf (l : List (String × ArcEntry)) : List String := l.map Prod.fst

/-! Helper lemmas shared by several claims. -/

lemma dist2D_comm (p q : Point) : dist2D p q = dist2D q p := by
  unfold dist2D
  congr 1
  ring

lemma dist2D_self (p : Point) : dist2D p p = 0 := by
  simp [dist2D]

lemma dist2D_nonneg (p q : Point) : 0 ≤ dist2D p q := Real.sqrt_nonneg _

lemma bezierList_three (a b c : Point) (t : ℝ) :
    bezierList [a, b, c] t =
      ((1 - t) ^ 2 * a.1 + 2 * (1 - t) * t * b.1 + t ^ 2 * c.1,
       (1 - t) ^ 2 * a.2 + 2 * (1 - t) * t * b.2 + t ^ 2 * c.2) := by
  unfold bezierList
  simp only [List.length_cons, List.length_nil, Nat.zero_add]
  rw [Prod.ext_iff]
  simp only [Finset.sum_range_succ, Finset.sum_range_zero, List.getD_cons_zero,
    List.getD_cons_succ, show (3 - 1 : ℕ) = 2 from rfl, show Nat.choose 2 0 = 1 from rfl,
    show Nat.choose 2 1 = 2 from rfl, show Nat.choose 2 2 = 1 from rfl]
  push_cast
  constructor <;> ring

lemma bezierList_four (a b c d : Point) (t : ℝ) :
    bezierList [a, b, c, d] t =
      ((1 - t) ^ 3 * a.1 + 3 * (1 - t) ^ 2 * t * b.1 + 3 * (1 - t) * t ^ 2 * c.1 + t ^ 3 * d.1,
       (1 - t) ^ 3 * a.2 + 3 * (1 - t) ^ 2 * t * b.2 + 3 * (1 - t) * t ^ 2 * c.2 + t ^ 3 * d.2) := by
  unfold bezierList
  simp only [List.length_cons, List.length_nil, Nat.zero_add]
  rw [Prod.ext_iff]
  simp only [Finset.sum_range_succ, Finset.sum_range_zero, List.getD_cons_zero,
    List.getD_cons_succ, show (4 - 1 : ℕ) = 3 from rfl, show Nat.choose 3 0 = 1 from rfl,
    show Nat.choose 3 1 = 3 from rfl, show Nat.choose 3 2 = 3 from rfl,
    show Nat.choose 3 3 = 1 from rfl]
  push_cast
  constructor <;> ring

lemma createArcPath_great (sp tp : Point) :
    AnimatedAttackArcs.createArcPath idProj sp tp .greatCircle =
      .quad sp ((sp.1 + tp.1) / 2,
        (sp.2 + tp.2) / 2 - AnimatedAttackArcs.arcHeight .greatCircle (dist2D sp tp)) tp := by
  simp [AnimatedAttackArcs.createArcPath, idProj]

lemma createArcPath_cubic (k : CurveType) (hk : k ≠ .greatCircle) (sp tp : Point) :
    AnimatedAttackArcs.createArcPath idProj sp tp k =
      .cubic sp
        (sp.1 + ((sp.1 + tp.1) / 2 - sp.1) * 0.5,
         sp.2 - AnimatedAttackArcs.arcHeight k (dist2D sp tp) * 0.3)
        (tp.1 - (tp.1 - (sp.1 + tp.1) / 2) * 0.5,
         tp.2 - AnimatedAttackArcs.arcHeight k (dist2D sp tp) * 0.3)
        tp := by
  simp [AnimatedAttackArcs.createArcPath, idProj, hk]

lemma arcHeight_at_zero (k : CurveType) : AnimatedAttackArcs.arcHeight k 0 = 0 := by
  cases k <;> simp [AnimatedAttackArcs.arcHeight]

lemma dist2D_horizontal : dist2D (0, 0) (100, 0) = 100 := by
  unfold dist2D
  norm_num
  rw [show (10000 : ℝ) = 100 ^ 2 by norm_num, Real.sqrt_sq (by norm_num)]

lemma dist2D_vertical : dist2D (0, 0) ((0 : ℝ), (100 : ℝ)) = 100 := by
  unfold dist2D
  norm_num
  rw [show (10000 : ℝ) = 100 ^ 2 by norm_num, Real.sqrt_sq (by norm_num)]

lemma not_mem_keys_mapDelete (l : List (String × ArcEntry)) (k : String) :
    k ∉ keysOf (mapDelete l k) := by
  intro hmem
  simp only [keysOf, mapDelete, List.mem_map, List.mem_filter] at hmem
  obtain ⟨e, ⟨_, he⟩, hk⟩ := hmem
  simp [hk] at he

lemma not_mem_keys_removeArc (s : ArcsState) (id : String) :
    id ∉ keysOf (AnimatedAttackArcs.removeArc s id).arcs := by
  unfold AnimatedAttackArcs.removeArc
  cases hf : mapGet s.arcs id with
  | some arc => exact not_mem_keys_mapDelete s.arcs id
  | none =>
    intro hmem
    simp only [keysOf, List.mem_map] at hmem
    obtain ⟨e, he, hk⟩ := hmem
    cases hfind : s.arcs.find? (fun e => e.1 == id) with
    | some x => simp [mapGet, hfind] at hf
    | none =>
      rw [List.find?_eq_none] at hfind
      have h3 := hfind e he
      simp [hk] at h3

lemma mapSet_of_not_mem {l : List (String × ArcEntry)} {k : String}
    (h : k ∉ keysOf l) (v : ArcEntry) : mapSet l k v = l ++ [(k, v)] := by
  have hany : l.any (fun e => e.1 == k) = false := by
    rw [List.any_eq_false]
    intro e he hk
    exact h (List.mem_map.mpr ⟨e, he, by simpa using hk⟩)
  unfold mapSet
  rw [hany]
  simp

lemma keys_mapDelete_nodup {l : List (String × ArcEntry)} (h : (keysOf l).Nodup)
    (k : String) : (keysOf (mapDelete l k)).Nodup :=
  ((List.filter_sublist l).map Prod.fst).nodup h

lemma removeArc_nodup {s : ArcsState} (h : (keysOf s.arcs).Nodup) (id : String) :
    (keysOf (AnimatedAttackArcs.removeArc s id).arcs).Nodup := by
  unfold AnimatedAttackArcs.removeArc
  cases hf : mapGet s.arcs id with
  | some arc => exact keys_mapDelete_nodup h id
  | none => exact h

lemma addArc_nodup (projection : Point → Option Point) {s : ArcsState}
    (h : (keysOf s.arcs).Nodup) (id : String) (src tgt : Point) :
    (keysOf (AnimatedAttackArcs.addArc projection s id src tgt).arcs).Nodup := by
  unfold AnimatedAttackArcs.addArc
  have h1 := removeArc_nodup h id
  have h2 := not_mem_keys_removeArc s id
  cases projection src <;> cases projection tgt <;> dsimp only
  case some.some =>
    rw [mapSet_of_not_mem h2]
    simp only [keysOf, List.map_append]
    rw [List.nodup_append]
    refine ⟨h1, by simp, ?_⟩
    intro a ha hb
    simp at hb
    subst hb
    exact h2 ha
  all_goals exact h1

lemma foldl_ops_nodup (projection : Point → Option Point) (ops : List AnimatedAttackArcs.ArcOp)
    (s : ArcsState) (h : (keysOf s.arcs).Nodup) :
    (keysOf (ops.foldl (AnimatedAttackArcs.applyOp projection) s).arcs).Nodup := by
  induction ops generalizing s with
  | nil => exact h
  | cons op rest ih =>
    simp only [List.foldl_cons]
    apply ih
    cases op with
    | add id src tgt => exact addArc_nodup projection h id src tgt
    | remove id => exact removeArc_nodup h id


/-- Claim C1: for every source point, target point and curve kind,
`getPointAlongArc` at progress 0 returns exactly the (projected) source
point and at progress 1 returns exactly the (projected) target point,
in both the `AnimatedAttackArcs.js` variant and the
`D3AnimatedArcs.tsx` variant. -/
theorem pointAtProgress_endpoints_exact (projection : Point → Option Point)
    (source target sp tp : Point) (k : CurveType)
    (hs : projection source = some sp) (ht : projection target = some tp) :
    AnimatedAttackArcs.getPointAlongArc projection source target 0 k = sp ∧
    AnimatedAttackArcs.getPointAlongArc projection source target 1 k = tp ∧
    D3AnimatedArcs.getPointAlongArc sp tp 0 = sp ∧
    D3AnimatedArcs.getPointAlongArc sp tp 1 = tp := by
  obtain ⟨sx, sy⟩ := sp
  obtain ⟨tx, ty⟩ := tp
  refine ⟨?_, ?_, ?_, ?_⟩
  · cases k <;> simp [AnimatedAttackArcs.getPointAlongArc, hs, ht, Prod.ext_iff]
  · cases k <;> simp [AnimatedAttackArcs.getPointAlongArc, hs, ht, Prod.ext_iff]
  · simp [D3AnimatedArcs.getPointAlongArc, Prod.ext_iff]
  · simp [D3AnimatedArcs.getPointAlongArc, Prod.ext_iff]

theorem pointAtProgress_endpoints_exact_witness :
    AnimatedAttackArcs.getPointAlongArc idProj (1, 2) (3, 4) 0 .globe = (1, 2) ∧
    AnimatedAttackArcs.getPointAlongArc idProj (1, 2) (3, 4) 1 .globe = (3, 4) ∧
    D3AnimatedArcs.getPointAlongArc (1, 2) (3, 4) 0 = (1, 2) ∧
    D3AnimatedArcs.getPointAlongArc (1, 2) (3, 4) 1 = (3, 4) :=
  pointAtProgress_endpoints_exact idProj (1, 2) (3, 4) (1, 2) (3, 4) .globe rfl rfl

/-- Claim C2: for every pair of projected points and every curved kind,
the computed arc height equals `min(distance * kindMultiplier, kindCap)`
of the spec table; hence for every distance `d ≥ 0` the height is
nonnegative, at most the cap, and the height of distance 0 is 0. -/
theorem arcHeight_saturating (k : CurveType) (sp tp : Point) (d : ℝ) (hd : 0 ≤ d) :
    AnimatedAttackArcs.arcHeight k (dist2D sp tp) =
      min (dist2D sp tp * specMultiplier (kindOf k)) (specCap (kindOf k)) ∧
    0 ≤ AnimatedAttackArcs.arcHeight k d ∧
    AnimatedAttackArcs.arcHeight k d ≤ specCap (kindOf k) ∧
    AnimatedAttackArcs.arcHeight k 0 = 0 := by
  refine ⟨by cases k <;> rfl, ?_, ?_, arcHeight_at_zero k⟩
  · cases k <;> exact le_min (by positivity) (by norm_num)
  · cases k <;> exact min_le_right _ _

theorem arcHeight_saturating_witness :
    (0 : ℝ) ≤ 7 ∧
    (AnimatedAttackArcs.arcHeight .parabolic (dist2D (0, 0) (3, 4)) =
      min (dist2D (0, 0) (3, 4) * specMultiplier (kindOf .parabolic))
        (specCap (kindOf .parabolic)) ∧
    0 ≤ AnimatedAttackArcs.arcHeight .parabolic 7 ∧
    AnimatedAttackArcs.arcHeight .parabolic 7 ≤ specCap (kindOf .parabolic) ∧
    AnimatedAttackArcs.arcHeight .parabolic 0 = 0) :=
  ⟨by norm_num, arcHeight_saturating .parabolic (0, 0) (3, 4) 7 (by norm_num)⟩

/-- Claim C3: every call site that builds an arc for a named curve kind
uses exactly the multiplier/cap/degree triple of the spec table:
QuadraticGreatCircle 0.3/150 degree 2, QuadraticGlobe 0.4/200 degree 2,
CubicGlobe 0.6/300 degree 3, CubicParabolic 0.8/400 degree 3 — across
the `AnimatedAttackArcs.js` switch, the enhanced `D3AnimatedArcs.tsx`
switch, the quadratic `createCurvedArcPath` variant, and the fixed
cubic `createDramaticGlobeArc` variant. -/
theorem kind_table_at_call_sites (k : CurveType) (d : ℝ) (sp tp : Point) :
    AnimatedAttackArcs.arcHeight k d =
      min (d * specMultiplier (kindOf k)) (specCap (kindOf k)) ∧
    SimpleWorldMapV2.arcHeight k d =
      min (d * specMultiplier (kindOf k)) (specCap (kindOf k)) ∧
    (AnimatedAttackArcs.createArcPath idProj sp tp k).ctrl.length =
      specDegree (kindOf k) + 1 ∧
    (SimpleWorldMapV2.createDramaticGlobeArc sp tp k).ctrl.length =
      specDegree (kindOf k) + 1 ∧
    D3AnimatedArcs.createCurvedArcPath sp tp =
      .quad sp ((sp.1 + tp.1) / 2,
        (sp.2 + tp.2) / 2 -
          min (dist2D sp tp * specMultiplier .quadraticGlobe) (specCap .quadraticGlobe)) tp ∧
    (D3AnimatedArcs.createCurvedArcPath sp tp).ctrl.length =
      specDegree .quadraticGlobe + 1 ∧
    SimpleWorldMap.createDramaticGlobeArc sp tp =
      .cubic sp
        (sp.1 + ((sp.1 + tp.1) / 2 - sp.1) * 0.5,
         sp.2 - min (dist2D sp tp * specMultiplier .cubicGlobe) (specCap .cubicGlobe) * 0.3)
        (tp.1 - (tp.1 - (sp.1 + tp.1) / 2) * 0.5,
         tp.2 - min (dist2D sp tp * specMultiplier .cubicGlobe) (specCap .cubicGlobe) * 0.3)
        tp ∧
    (SimpleWorldMap.createDramaticGlobeArc sp tp).ctrl.length = specDegree .cubicGlobe + 1 := by
  refine ⟨by cases k <;> rfl, by cases k <;> rfl, ?_, ?_, rfl, rfl, rfl, rfl⟩
  · cases k <;>
      simp [AnimatedAttackArcs.createArcPath, idProj, PathDesc.ctrl, specDegree, kindOf]
  · cases k <;>
      simp [SimpleWorldMapV2.createDramaticGlobeArc, PathDesc.ctrl, specDegree, kindOf]

/-- Claim C4 counterexample: for source (0,0), target (0,100) and the
cubic globe kind, the built path's first control point is (0,-18),
whereas the spec formula `cp1 = source + 0.5*(midpoint - source)`
shifted up by `0.3*h` gives (0,7); the claim as stated is false. -/
theorem cubic_controls_spec_counterexample :
    AnimatedAttackArcs.createArcPath idProj (0, 0) ((0 : ℝ), (100 : ℝ)) .globe =
      .cubic (0, 0) (0, -18) (0, 82) (0, 100) ∧
    specCp1 (0, 0) ((0 : ℝ), (100 : ℝ))
      (AnimatedAttackArcs.arcHeight .globe (dist2D (0, 0) ((0 : ℝ), (100 : ℝ)))) = (0, 7) ∧
    ((0 : ℝ), (-18 : ℝ)) ≠ ((0 : ℝ), (7 : ℝ)) := by
  have hd := dist2D_vertical
  refine ⟨?_, ?_, by norm_num [Prod.ext_iff]⟩
  · rw [createArcPath_cubic .globe (by decide)]
    rw [hd]
    norm_num [AnimatedAttackArcs.arcHeight, Prod.ext_iff]
  · rw [hd]
    norm_num [specCp1, AnimatedAttackArcs.arcHeight, Prod.ext_iff]

/-- Claim C4 amended: for the cubic kinds the built path is the cubic
curve (source, cp1, cp2, target) whose control-point x-coordinates are
blended halfway toward the midpoint exactly as the spec formulas state,
but whose y-coordinates are each endpoint's own y shifted up by
`0.3*h` (not the blended y of the spec formulas). -/
theorem cubic_controls_amended (k : CurveType) (hk : k ≠ .greatCircle) (sp tp : Point) :
    AnimatedAttackArcs.createArcPath idProj sp tp k =
      .cubic sp
        ((specCp1 sp tp (AnimatedAttackArcs.arcHeight k (dist2D sp tp))).1,
         sp.2 - 0.3 * AnimatedAttackArcs.arcHeight k (dist2D sp tp))
        ((specCp2 sp tp (AnimatedAttackArcs.arcHeight k (dist2D sp tp))).1,
         tp.2 - 0.3 * AnimatedAttackArcs.arcHeight k (dist2D sp tp))
        tp := by
  rw [createArcPath_cubic k hk]
  congr 1
  · rw [Prod.ext_iff]
    dsimp only [specCp1]
    constructor <;> ring
  · rw [Prod.ext_iff]
    dsimp only [specCp2]
    constructor <;> ring

theorem cubic_controls_amended_witness :
    AnimatedAttackArcs.createArcPath idProj (0, 0) ((0 : ℝ), (100 : ℝ)) .globe =
      .cubic (0, 0)
        ((specCp1 (0, 0) ((0 : ℝ), (100 : ℝ))
            (AnimatedAttackArcs.arcHeight .globe (dist2D (0, 0) ((0 : ℝ), (100 : ℝ))))).1,
         (0 : ℝ) - 0.3 * AnimatedAttackArcs.arcHeight .globe (dist2D (0, 0) ((0 : ℝ), (100 : ℝ))))
        ((specCp2 (0, 0) ((0 : ℝ), (100 : ℝ))
            (AnimatedAttackArcs.arcHeight .globe (dist2D (0, 0) ((0 : ℝ), (100 : ℝ))))).1,
         (100 : ℝ) - 0.3 * AnimatedAttackArcs.arcHeight .globe (dist2D (0, 0) ((0 : ℝ), (100 : ℝ))))
        (0, 100) :=
  cubic_controls_amended .globe (by decide) (0, 0) ((0 : ℝ), (100 : ℝ))

/-- Claim C5: when source equals target, the distance and arc height
are 0, path construction degenerates to a zero-length path all of whose
points equal the input point, and `getPointAlongArc` returns exactly
that point for every progress value; both operations are total
functions, so no division by zero and no exception can occur. -/
theorem degenerate_equal_endpoints (p : Point) (k : CurveType) (t : ℝ) :
    dist2D p p = 0 ∧
    AnimatedAttackArcs.arcHeight k (dist2D p p) = 0 ∧
    (AnimatedAttackArcs.createArcPath idProj p p k = .quad p p p ∨
     AnimatedAttackArcs.createArcPath idProj p p k = .cubic p p p p) ∧
    AnimatedAttackArcs.getPointAlongArc idProj p p t k = p := by
  obtain ⟨x, y⟩ := p
  have hd : dist2D (x, y) (x, y) = 0 := dist2D_self _
  have hh : AnimatedAttackArcs.arcHeight k (dist2D (x, y) (x, y)) = 0 := by
    rw [hd]; exact arcHeight_at_zero k
  refine ⟨hd, hh, ?_, ?_⟩
  · cases k
    case greatCircle =>
      left
      rw [createArcPath_great, hh]
      congr 1
      rw [Prod.ext_iff]
      constructor <;> dsimp only <;> ring
    case globe =>
      right
      rw [createArcPath_cubic _ (by decide), hh]
      congr 1 <;> rw [Prod.ext_iff] <;> constructor <;> dsimp only <;> ring
    case parabolic =>
      right
      rw [createArcPath_cubic _ (by decide), hh]
      congr 1 <;> rw [Prod.ext_iff] <;> constructor <;> dsimp only <;> ring
  · cases k <;>
      simp [AnimatedAttackArcs.getPointAlongArc, idProj, hh, hd, arcHeight_at_zero,
        Prod.ext_iff] <;> ring_nf <;> norm_num


/-- Claim C6: for source (0,0) and target (100,0) with the
great-circle kind, the distance is 100, the arc height is
`min(30,150) = 30`, the single control point is (50,-30), and
`getPointAlongArc` at progress 0.5 is (50,-15), which equals
`0.25*source + 0.5*control + 0.25*target`. -/
theorem great_circle_concrete_example :
    dist2D (0, 0) (100, 0) = 100 ∧
    AnimatedAttackArcs.arcHeight .greatCircle (dist2D (0, 0) (100, 0)) = min 30 150 ∧
    min (30 : ℝ) 150 = 30 ∧
    AnimatedAttackArcs.createArcPath idProj (0, 0) (100, 0) .greatCircle =
      .quad (0, 0) (50, -30) (100, 0) ∧
    AnimatedAttackArcs.getPointAlongArc idProj (0, 0) (100, 0) 0.5 .greatCircle = (50, -15) ∧
    ((50 : ℝ), (-15 : ℝ)) =
      (0.25 * 0 + 0.5 * 50 + 0.25 * 100, 0.25 * 0 + 0.5 * (-30) + 0.25 * 0) := by
  have hd := dist2D_horizontal
  refine ⟨hd, ?_, by norm_num, ?_, ?_, by norm_num⟩
  · rw [hd]
    norm_num [AnimatedAttackArcs.arcHeight]
  · rw [createArcPath_great, hd]
    norm_num [AnimatedAttackArcs.arcHeight, Prod.ext_iff]
  · simp only [AnimatedAttackArcs.getPointAlongArc, idProj, hd]
    norm_num [AnimatedAttackArcs.arcHeight, Prod.ext_iff]

/-- Claim C7: for the quadratic kinds (both source variants) and the
straight kind (the fourth component's inline linear sampler), sampling
at progress `t` after swapping source and target equals sampling the
original pair at `1 - t`. -/
theorem reverse_symmetry (sp tp : Point) (t : ℝ) :
    AnimatedAttackArcs.getPointAlongArc idProj sp tp t .greatCircle =
      AnimatedAttackArcs.getPointAlongArc idProj tp sp (1 - t) .greatCircle ∧
    D3AnimatedArcs.getPointAlongArc sp tp t = D3AnimatedArcs.getPointAlongArc tp sp (1 - t) ∧
    SimpleWorldMapV3.particlePosition sp tp t =
      SimpleWorldMapV3.particlePosition tp sp (1 - t) := by
  have hd := dist2D_comm sp tp
  obtain ⟨sx, sy⟩ := sp
  obtain ⟨tx, ty⟩ := tp
  refine ⟨?_, ?_, ?_⟩
  · simp only [AnimatedAttackArcs.getPointAlongArc, idProj, hd, Prod.ext_iff]
    norm_num
    constructor <;> ring
  · simp only [D3AnimatedArcs.getPointAlongArc, hd, Prod.ext_iff]
    constructor <;> ring
  · simp only [SimpleWorldMapV3.particlePosition, Prod.ext_iff]
    constructor <;> ring

/-- Claim C8: `getPointAlongArc` performs no clamping: for every real
progress value `t`, including `t < 0` and `t > 1`, it returns the value
of the canonical Bernstein polynomial over the control points of the
built path, evaluated at `t` — it extrapolates rather than saturating
at the endpoints. -/
theorem no_clamping_bernstein (sp tp : Point) (t : ℝ) (k : CurveType) :
    AnimatedAttackArcs.getPointAlongArc idProj sp tp t k =
      bezierList ((AnimatedAttackArcs.createArcPath idProj sp tp k).ctrl) t ∧
    D3AnimatedArcs.getPointAlongArc sp tp t =
      bezierList ((D3AnimatedArcs.createCurvedArcPath sp tp).ctrl) t ∧
    SimpleWorldMap.particlePosition sp tp t =
      bezierList ((SimpleWorldMap.createDramaticGlobeArc sp tp).ctrl) t := by
  refine ⟨?_, ?_, ?_⟩
  · cases k
    case greatCircle =>
      rw [createArcPath_great]
      simp only [PathDesc.ctrl]
      rw [bezierList_three]
      simp [AnimatedAttackArcs.getPointAlongArc, idProj]
    case globe =>
      rw [createArcPath_cubic _ (by decide)]
      simp only [PathDesc.ctrl]
      rw [bezierList_four]
      simp [AnimatedAttackArcs.getPointAlongArc, idProj, Prod.ext_iff]
    case parabolic =>
      rw [createArcPath_cubic _ (by decide)]
      simp only [PathDesc.ctrl]
      rw [bezierList_four]
      simp [AnimatedAttackArcs.getPointAlongArc, idProj, Prod.ext_iff]
  · simp only [D3AnimatedArcs.createCurvedArcPath, PathDesc.ctrl]
    rw [bezierList_three]
    simp [D3AnimatedArcs.getPointAlongArc, Prod.ext_iff]
  · simp only [SimpleWorldMap.createDramaticGlobeArc, PathDesc.ctrl]
    rw [bezierList_four]
    simp [SimpleWorldMap.particlePosition, Prod.ext_iff]

/-- Claim C9: the arc registry never holds two arcs with the same id:
after any sequence of `addArc` / `removeArc` operations from the
freshly-constructed state, the arcs map has at most one entry per id
(`addArc` first removes any existing arc with the given id, clearing
its particle-spawn interval and deleting its entry, before inserting). -/
theorem registry_at_most_one_arc_per_id (projection : Point → Option Point)
    (ops : List AnimatedAttackArcs.ArcOp) (id : String) :
    ((AnimatedAttackArcs.runOps projection ops).arcs.map Prod.fst).count id ≤ 1 := by
  have h := foldl_ops_nodup projection ops initialState (by simp [initialState, keysOf])
  exact List.nodup_iff_count_le_one.mp h id

lemma mapGet_removeArc_self (s : ArcsState) (id : String) :
    mapGet (AnimatedAttackArcs.removeArc s id).arcs id = none := by
  unfold AnimatedAttackArcs.removeArc
  cases hf : mapGet s.arcs id with
  | none => exact hf
  | some arc =>
    simp only [mapGet, mapDelete, Option.map_eq_none', List.find?_eq_none]
    intro x hx
    simp only [List.mem_filter] at hx
    simpa using hx.2

/-- Claim C10: when the projection returns null for either endpoint,
`createArcPath` returns the empty-string path, `getPointAlongArc`
returns the point `[0, 0]`, and `addArc` returns without creating any
arc or registry entry (its only effect is the initial removal of any
existing arc with that id). -/
theorem null_projection_sentinels (projection : Point → Option Point)
    (src tgt : Point) (h : projection src = none ∨ projection tgt = none)
    (k : CurveType) (t : ℝ) (s : ArcsState) (id : String) :
    AnimatedAttackArcs.createArcPath projection src tgt k = .empty ∧
    AnimatedAttackArcs.getPointAlongArc projection src tgt t k = (0, 0) ∧
    AnimatedAttackArcs.addArc projection s id src tgt = AnimatedAttackArcs.removeArc s id ∧
    mapGet (AnimatedAttackArcs.addArc projection s id src tgt).arcs id = none := by
  have hstate : AnimatedAttackArcs.addArc projection s id src tgt =
      AnimatedAttackArcs.removeArc s id := by
    unfold AnimatedAttackArcs.addArc
    rcases h with h | h <;> rw [h]
    all_goals cases projection src <;> rfl
  refine ⟨?_, ?_, hstate, ?_⟩
  · unfold AnimatedAttackArcs.createArcPath
    rcases h with h | h <;> rw [h]
    all_goals cases projection src <;> rfl
  · unfold AnimatedAttackArcs.getPointAlongArc
    rcases h with h | h <;> rw [h]
    all_goals cases projection src <;> rfl
  · rw [hstate]
    exact mapGet_removeArc_self s id

theorem null_projection_sentinels_witness :
    AnimatedAttackArcs.createArcPath (fun _ => none) (0, 0) (1, 1) .globe = .empty ∧
    AnimatedAttackArcs.getPointAlongArc (fun _ => none) (0, 0) (1, 1) 0.5 .globe = (0, 0) ∧
    AnimatedAttackArcs.addArc (fun _ => none) initialState "a" (0, 0) (1, 1) =
      AnimatedAttackArcs.removeArc initialState "a" ∧
    mapGet (AnimatedAttackArcs.addArc (fun _ => none) initialState "a" (0, 0) (1, 1)).arcs
      "a" = none :=
  null_projection_sentinels (fun _ => none) (0, 0) (1, 1) (Or.inl rfl) .globe 0.5
    initialState "a"


end ThreatMap
